import Mathlib

/-!
Verification of the TollCrypt toll-booth edge agent (`src/hardware/main.py`)
against its natural-language specification.

The embedding below is a shallow translation of the Python source.  Stateful
methods of `TollChainHardware` become pure functions from an explicit state
(`HW`) and an injected environment outcome (sensor reads, backend responses,
channel events) to a new state plus a timed trace of observable actions.

Timing convention: trace timestamps are rational offsets from the start of the
modelled call.  The clock advances only at the source's explicit blocking
points — `time.sleep` inside `buzz` and the `asyncio.sleep` calls — network
latency of the HTTP call itself is not modelled.  `logger.error` (and the
cooldown `logger.info`) calls that mark a handled failure or a suppressed scan
are modelled as `Action.log` events with a short tag; progress-only
`logger.info` messages are not modelled.
-/

namespace TollChain

/-- An identifier string for a vehicle, as scanned by a sensor. -/
abbrev VehicleId := String

/-- LED colors wired to GPIO pins (`LED_GREEN`, `LED_RED`, `LED_YELLOW`). -/
inductive Color
  | green
  | red
  | yellow
  deriving DecidableEq, Repr

/-- Observable actions of the agent: GPIO output changes, the HTTP scan report,
websocket sends, websocket connection attempts, the hardware-status payload,
and log lines that mark handled failures. -/
inductive Action
  | ledOn (c : Color)
  | ledOff (c : Color)
  | buzzerHigh
  | buzzerLow
  | httpPost (scanType : String) (vehicleId : String)
  | wsSend (msgType : String) (vehicleId : String)
  | wsSendAttempt (msgType : String) (vehicleId : String)
  | connectAttempt
  | statusSend
  | log (tag : String)
  deriving DecidableEq, Repr

/-- A timed trace: each action paired with its rational time offset. -/
abbrev Trace := List (ℚ × Action)

/-- Mutable state of `TollChainHardware` relevant to the verified claims:
whether `self.rfid_serial`, `self.camera` and `self.websocket` are non-`None`,
and the `self.last_scan_time` dictionary. -/
structure HW where
  rfidSerial : Bool
  camera : Bool
  websocket : Bool
  lastScanTime : List (VehicleId × ℚ)
  deriving DecidableEq, Repr

/-- The cooldown `self.scan_cooldown = 5  # seconds` from `__init__`. -/
def scan_cooldown : ℚ := 5

/-- Dictionary lookup on the `last_scan_time` association list
(`vehicle_id in self.last_scan_time` / `self.last_scan_time[vehicle_id]`). -/
def lookupLast : List (VehicleId × ℚ) → VehicleId → Option ℚ
  | [], _ => none
  | (k, v) :: r, id => if k = id then some v else lookupLast r id

/-- Dictionary assignment `self.last_scan_time[vehicle_id] = current_time`. -/
def setLast : List (VehicleId × ℚ) → VehicleId → ℚ → List (VehicleId × ℚ)
  | [], id, t => [(id, t)]
  | (k, v) :: r, id, t => if k = id then (id, t) :: r else (k, v) :: setLast r id t

/-- The deduplication gate at the top of `process_vehicle_scan` (lines
213-220): suppress when the identifier was seen less than `cooldown` ago
(leaving the stored time unchanged), otherwise record `now` and accept. -/
def shouldProcess (cooldown : ℚ) (m : List (VehicleId × ℚ)) (id : VehicleId)
    (now : ℚ) : Bool × List (VehicleId × ℚ) :=
  match lookupLast m id with
  | some t => if now - t < cooldown then (false, m) else (true, setLast m id now)
  | none => (true, setLast m id now)

theorem lookupLast_setLast_self (m : List (VehicleId × ℚ)) (id : VehicleId)
    (t : ℚ) : lookupLast (setLast m id t) id = some t := by
  induction m with
  | nil => simp [setLast, lookupLast]
  | cons p r ih =>
      obtain ⟨k, v⟩ := p
      by_cases h : k = id
      · simp [setLast, lookupLast, h]
      · simp [setLast, lookupLast, h, ih]

theorem shouldProcess_accepted {c : ℚ} {m : List (VehicleId × ℚ)}
    {id : VehicleId} {now : ℚ} (h : (shouldProcess c m id now).1 = true) :
    shouldProcess c m id now = (true, setLast m id now) := by
  cases hl : lookupLast m id with
  | none => simp [shouldProcess, hl]
  | some t =>
      by_cases hlt : now - t < c
      · simp [shouldProcess, hl, hlt] at h
      · simp [shouldProcess, hl, hlt]

/-- Claim C2: for every identifier and times `t1 < t2`, the first-ever
deduplication check accepts regardless of timestamp; after an accepted check
at `t1`, a second check at `t2` is suppressed with the stored time unchanged
when `t2 - t1 < 5`, and accepted with `t2` recorded when `t2 - t1 >= 5`. -/
theorem C2_dedup_window (m : List (VehicleId × ℚ)) (id : VehicleId)
    (t1 t2 : ℚ) (hfresh : lookupLast m id = none) (hlt : t1 < t2) :
    (shouldProcess scan_cooldown m id t1).1 = true ∧
    (t2 - t1 < scan_cooldown →
      shouldProcess scan_cooldown (shouldProcess scan_cooldown m id t1).2 id t2
        = (false, (shouldProcess scan_cooldown m id t1).2)) ∧
    (scan_cooldown ≤ t2 - t1 →
      (shouldProcess scan_cooldown (shouldProcess scan_cooldown m id t1).2 id t2).1
        = true ∧
      lookupLast
        (shouldProcess scan_cooldown (shouldProcess scan_cooldown m id t1).2 id t2).2
        id = some t2) := by
  have hstep1 : shouldProcess scan_cooldown m id t1 = (true, setLast m id t1) := by
    simp [shouldProcess, hfresh]
  refine ⟨by rw [hstep1], ?_, ?_⟩
  · intro hwin
    rw [hstep1]
    simp [shouldProcess, lookupLast_setLast_self, hwin]
  · intro hpast
    rw [hstep1]
    simp [shouldProcess, lookupLast_setLast_self, not_lt.mpr hpast]

/-- Witness for C2 at a concrete input: fresh map, `t1 = 0`, `t2 = 3`. -/
theorem C2_dedup_window_w :
    (lookupLast [] "VEH_001" = none ∧ (0 : ℚ) < 3) ∧
    ((shouldProcess scan_cooldown [] "VEH_001" 0).1 = true ∧
     ((3 : ℚ) - 0 < scan_cooldown →
       shouldProcess scan_cooldown (shouldProcess scan_cooldown [] "VEH_001" 0).2 "VEH_001" 3
         = (false, (shouldProcess scan_cooldown [] "VEH_001" 0).2)) ∧
     (scan_cooldown ≤ (3 : ℚ) - 0 →
       (shouldProcess scan_cooldown (shouldProcess scan_cooldown [] "VEH_001" 0).2 "VEH_001" 3).1
         = true ∧
       lookupLast
         (shouldProcess scan_cooldown (shouldProcess scan_cooldown [] "VEH_001" 0).2 "VEH_001" 3).2
         "VEH_001" = some 3)) :=
  ⟨⟨by decide, by decide⟩, C2_dedup_window [] "VEH_001" 0 3 (by decide) (by decide)⟩

/-- Embedding of `set_status_led` (lines 190-200): dispatch on the color string; unknown
colors do nothing. -/
def set_status_led (color : String) (state : Bool) : List Action :=
  if color = "green" then
    [if state then Action.ledOn Color.green else Action.ledOff Color.green]
  else if color = "red" then
    [if state then Action.ledOn Color.red else Action.ledOff Color.red]
  else if color = "yellow" then
    [if state then Action.ledOn Color.yellow else Action.ledOff Color.yellow]
  else []

/-- Stamp a list of actions with one time offset. -/
def timedAt (t : ℚ) (as : List Action) : Trace := as.map (fun a => (t, a))

/-- The label `'scanType': 'rfid' if self.rfid_serial else 'qr'` (line 229): it is
chosen from the availability of the RFID serial device, not from the sensor
that produced the identifier. -/
def scanTypeLabel (hw : HW) : String := if hw.rfidSerial then "rfid" else "qr"

/-- Environment outcome of the backend report for one accepted scan, as the
code observes it: a 200 response with the parsed `registered` field (`none`
when the body lacks the field) plus whether the subsequent websocket send
raises; a non-200 status; or `requests.post` raising (timeout or connection
failure). -/
inductive ScanOutcome
  | success (registered : Option Bool) (sendRaises : Bool)
  | httpError (statusCode : Nat)
  | postRaises
  deriving DecidableEq, Repr

/-- The 200-response branch of `process_vehicle_scan` (lines 239-272) for one
verdict: LED on, blocking buzz of `buzzDur`, websocket notification when
`self.websocket` is set (jumping to the `except` handler of lines 281-285 when
the send raises), then `asyncio.sleep(2)` and both green and red LEDs off. -/
def feedbackBranch (hw : HW) (id : VehicleId) (color : String) (buzzDur : ℚ)
    (msgType : String) (sendRaises : Bool) (post : ℚ × Action) : HW × Trace :=
  let base := [post] ++ timedAt 0 (set_status_led color true)
      ++ [((0 : ℚ), Action.buzzerHigh), (buzzDur, Action.buzzerLow)]
  if hw.websocket then
    if sendRaises then
      (hw, base ++ [(buzzDur, Action.wsSendAttempt msgType id),
                    (buzzDur, Action.log "process_error")]
            ++ timedAt buzzDur (set_status_led "red" true)
            ++ timedAt (buzzDur + 1) (set_status_led "red" false))
    else
      (hw, base ++ [(buzzDur, Action.wsSend msgType id)]
            ++ timedAt (buzzDur + 2) (set_status_led "green" false)
            ++ timedAt (buzzDur + 2) (set_status_led "red" false))
  else
    (hw, base ++ timedAt (buzzDur + 2) (set_status_led "green" false)
          ++ timedAt (buzzDur + 2) (set_status_led "red" false))

/-- The body of `process_vehicle_scan` after the scan was accepted by the
deduplication gate (lines 222-285): `POST /api/hardware/scan`, then branch on
the outcome.  200 with a true `registered` field: green / short buzz /
`vehicle_detected`; 200 otherwise: red / long buzz / `unregistered_vehicle`;
non-200: yellow for 1 time-unit (lines 274-279); a raised exception: the
generic handler logs and pulses red for 1 time-unit (lines 281-285). -/
def processAccepted (hw : HW) (id : VehicleId) (out : ScanOutcome) : HW × Trace :=
  let post : ℚ × Action := (0, Action.httpPost (scanTypeLabel hw) id)
  match out with
  | ScanOutcome.postRaises =>
      (hw, [post, ((0 : ℚ), Action.log "process_error")]
            ++ timedAt 0 (set_status_led "red" true)
            ++ timedAt 1 (set_status_led "red" false))
  | ScanOutcome.httpError _ =>
      (hw, [post] ++ timedAt 0 (set_status_led "yellow" true)
            ++ [((0 : ℚ), Action.log "backend_error")]
            ++ timedAt 1 (set_status_led "yellow" false))
  | ScanOutcome.success body sendRaises =>
      if body.getD false then
        feedbackBranch hw id "green" (3 / 10) "vehicle_detected" sendRaises post
      else
        feedbackBranch hw id "red" 1 "unregistered_vehicle" sendRaises post

/-- Embedding of `process_vehicle_scan` (lines 211-285): the deduplication gate followed by
the report/feedback body.  On suppression it logs and returns with the state
unchanged; on acceptance the last-seen time is recorded before the backend
call. -/
def process_vehicle_scan (hw : HW) (id : VehicleId) (now : ℚ)
    (out : ScanOutcome) : HW × Trace :=
  if (shouldProcess scan_cooldown hw.lastScanTime id now).1 then
    processAccepted
      { hw with lastScanTime := (shouldProcess scan_cooldown hw.lastScanTime id now).2 }
      id out
  else
    (hw, [((0 : ℚ), Action.log "cooldown")])

/-- A booth with all devices initialized and the channel connected, with no
scan history: the state right after a successful `__init__` plus
`connect_websocket`. -/
def hw0 : HW :=
  { rfidSerial := true, camera := true, websocket := true, lastScanTime := [] }

/-- Trace predicate: the yellow LED being switched on. -/
def isYellowOn (p : ℚ × Action) : Bool :=
  match p.2 with
  | Action.ledOn Color.yellow => true
  | _ => false

/-- Trace predicate: the green LED being switched off. -/
def isGreenOff (p : ℚ × Action) : Bool :=
  match p.2 with
  | Action.ledOff Color.green => true
  | _ => false

/-- Trace predicate: any websocket notification action (delivered or
attempted). -/
def isWsAct (p : ℚ × Action) : Bool :=
  match p.2 with
  | Action.wsSend _ _ => true
  | Action.wsSendAttempt _ _ => true
  | _ => false

theorem set_led_green_t : set_status_led "green" true = [Action.ledOn Color.green] := by decide

theorem set_led_green_f : set_status_led "green" false = [Action.ledOff Color.green] := by decide

theorem set_led_red_t : set_status_led "red" true = [Action.ledOn Color.red] := by decide

theorem set_led_red_f : set_status_led "red" false = [Action.ledOff Color.red] := by decide

theorem set_led_yellow_t : set_status_led "yellow" true = [Action.ledOn Color.yellow] := by decide

theorem set_led_yellow_f : set_status_led "yellow" false = [Action.ledOff Color.yellow] := by decide

theorem process_accepted_eq {hw : HW} {id : VehicleId} {now : ℚ}
    (out : ScanOutcome)
    (hacc : (shouldProcess scan_cooldown hw.lastScanTime id now).1 = true) :
    process_vehicle_scan hw id now out =
      processAccepted { hw with lastScanTime := setLast hw.lastScanTime id now }
        id out := by
  unfold process_vehicle_scan
  rw [shouldProcess_accepted hacc]
  simp

theorem feedbackBranch_fst (hw : HW) (id : VehicleId) (color : String)
    (d : ℚ) (msg : String) (s : Bool) (p : ℚ × Action) :
    (feedbackBranch hw id color d msg s p).1 = hw := by
  unfold feedbackBranch
  split
  · split <;> rfl
  · rfl

theorem processAccepted_fst (hw : HW) (id : VehicleId) (out : ScanOutcome) :
    (processAccepted hw id out).1 = hw := by
  cases out with
  | success reg s =>
      simp only [processAccepted]
      split
      · rw [feedbackBranch_fst]
      · rw [feedbackBranch_fst]
  | httpError sc => rfl
  | postRaises => rfl

theorem mem_feedbackBranch_red_on (hw : HW) (id : VehicleId) (d : ℚ)
    (msg : String) (s : Bool) (p : ℚ × Action) :
    ((0 : ℚ), Action.ledOn Color.red) ∈ (feedbackBranch hw id "red" d msg s p).2 := by
  unfold feedbackBranch
  split
  · split <;> simp [set_led_red_t, timedAt]
  · simp [set_led_red_t, timedAt]

/-- Claim C1 (amended): for every accepted scan whose backend report fails as
Unreachable (timeout or connection failure), `requests.post` raises and the
generic exception handler runs: the red LED turns ON, no buzz and no channel
notification occur, and the red LED turns OFF 1.0 time-units later.  The
yellow backend-error signal occurs only for a Rejected (non-200) response,
again with no buzz, no notification, and OFF 1.0 time-units later. -/
theorem C1_unreachable_red (hw : HW) (id : VehicleId) (now : ℚ) (sc : Nat)
    (hacc : (shouldProcess scan_cooldown hw.lastScanTime id now).1 = true) :
    (process_vehicle_scan hw id now ScanOutcome.postRaises).2 =
      [((0 : ℚ), Action.httpPost (scanTypeLabel hw) id),
       (0, Action.log "process_error"),
       (0, Action.ledOn Color.red), (1, Action.ledOff Color.red)] ∧
    (process_vehicle_scan hw id now (ScanOutcome.httpError sc)).2 =
      [((0 : ℚ), Action.httpPost (scanTypeLabel hw) id),
       (0, Action.ledOn Color.yellow), (0, Action.log "backend_error"),
       (1, Action.ledOff Color.yellow)] := by
  rw [process_accepted_eq ScanOutcome.postRaises hacc,
      process_accepted_eq (ScanOutcome.httpError sc) hacc]
  obtain ⟨rf, cam, ws, m⟩ := hw
  constructor <;>
    simp [processAccepted, set_led_red_t, set_led_red_f, set_led_yellow_t,
      set_led_yellow_f, timedAt, scanTypeLabel]

/-- Witness for the amended C1 at a concrete accepted scan. -/
theorem C1_unreachable_red_w :
    (shouldProcess scan_cooldown hw0.lastScanTime "VEH_003" 0).1 = true ∧
    ((process_vehicle_scan hw0 "VEH_003" 0 ScanOutcome.postRaises).2 =
      [((0 : ℚ), Action.httpPost (scanTypeLabel hw0) "VEH_003"),
       (0, Action.log "process_error"),
       (0, Action.ledOn Color.red), (1, Action.ledOff Color.red)] ∧
     (process_vehicle_scan hw0 "VEH_003" 0 (ScanOutcome.httpError 500)).2 =
      [((0 : ℚ), Action.httpPost (scanTypeLabel hw0) "VEH_003"),
       (0, Action.ledOn Color.yellow), (0, Action.log "backend_error"),
       (1, Action.ledOff Color.yellow)]) :=
  ⟨by decide, C1_unreachable_red hw0 "VEH_003" 0 500 (by decide)⟩

/-- Counterexample to claim C1 as stated: for the accepted scan of `"VEH_003"`
whose backend call raises (Unreachable), the trace contains no yellow-LED-on
action at all; the feedback is the red local-error pulse. -/
theorem C1_unreachable_cex :
    ((process_vehicle_scan hw0 "VEH_003" 0 ScanOutcome.postRaises).2.filter isYellowOn)
      = [] ∧
    ((0 : ℚ), Action.ledOn Color.red) ∈
      (process_vehicle_scan hw0 "VEH_003" 0 ScanOutcome.postRaises).2 := by decide

/-- Claim C3 (amended): for every accepted scan reported over a connected
channel with a 200 response, a true verdict gives green LED ON, a short
0.3-time-unit blocking buzz, a `vehicle_detected` notification, and green OFF
2.0 time-units after the buzz completes — 2.3 time-units after it turned ON,
not 2.0; a false verdict gives red LED ON, a long 1.0-time-unit buzz, an
`unregistered_vehicle` notification, and red OFF 3.0 time-units after it
turned ON. -/
theorem C3_verdict_feedback (hw : HW) (id : VehicleId) (now : ℚ)
    (hacc : (shouldProcess scan_cooldown hw.lastScanTime id now).1 = true)
    (hws : hw.websocket = true) :
    (process_vehicle_scan hw id now (ScanOutcome.success (some true) false)).2 =
      [((0 : ℚ), Action.httpPost (scanTypeLabel hw) id),
       (0, Action.ledOn Color.green), (0, Action.buzzerHigh),
       (3 / 10, Action.buzzerLow),
       (3 / 10, Action.wsSend "vehicle_detected" id),
       (3 / 10 + 2, Action.ledOff Color.green),
       (3 / 10 + 2, Action.ledOff Color.red)] ∧
    (process_vehicle_scan hw id now (ScanOutcome.success (some false) false)).2 =
      [((0 : ℚ), Action.httpPost (scanTypeLabel hw) id),
       (0, Action.ledOn Color.red), (0, Action.buzzerHigh),
       (1, Action.buzzerLow),
       (1, Action.wsSend "unregistered_vehicle" id),
       (1 + 2, Action.ledOff Color.green),
       (1 + 2, Action.ledOff Color.red)] ∧
    ((3 : ℚ) / 10 + 2 ≠ 2) ∧ ((1 : ℚ) + 2 ≠ 2) := by
  rw [process_accepted_eq (ScanOutcome.success (some true) false) hacc,
      process_accepted_eq (ScanOutcome.success (some false) false) hacc]
  obtain ⟨rf, cam, ws, m⟩ := hw
  subst hws
  refine ⟨?_, ?_, by norm_num, by norm_num⟩ <;>
    simp [processAccepted, feedbackBranch, set_led_green_t, set_led_green_f,
      set_led_red_t, set_led_red_f, timedAt, scanTypeLabel]

/-- Witness for the amended C3 at a concrete accepted scan. -/
theorem C3_verdict_feedback_w :
    ((shouldProcess scan_cooldown hw0.lastScanTime "VEH_001" 0).1 = true ∧
     hw0.websocket = true) ∧
    ((process_vehicle_scan hw0 "VEH_001" 0 (ScanOutcome.success (some true) false)).2 =
      [((0 : ℚ), Action.httpPost (scanTypeLabel hw0) "VEH_001"),
       (0, Action.ledOn Color.green), (0, Action.buzzerHigh),
       (3 / 10, Action.buzzerLow),
       (3 / 10, Action.wsSend "vehicle_detected" "VEH_001"),
       (3 / 10 + 2, Action.ledOff Color.green),
       (3 / 10 + 2, Action.ledOff Color.red)] ∧
     (process_vehicle_scan hw0 "VEH_001" 0 (ScanOutcome.success (some false) false)).2 =
      [((0 : ℚ), Action.httpPost (scanTypeLabel hw0) "VEH_001"),
       (0, Action.ledOn Color.red), (0, Action.buzzerHigh),
       (1, Action.buzzerLow),
       (1, Action.wsSend "unregistered_vehicle" "VEH_001"),
       (1 + 2, Action.ledOff Color.green),
       (1 + 2, Action.ledOff Color.red)] ∧
     ((3 : ℚ) / 10 + 2 ≠ 2) ∧ ((1 : ℚ) + 2 ≠ 2)) :=
  ⟨⟨by decide, by decide⟩, C3_verdict_feedback hw0 "VEH_001" 0 (by decide) (by decide)⟩

/-- Counterexample to claim C3 as stated: for the accepted scan of `"VEH_001"`
with a registered verdict, the only green-LED-off action is at 23/10 = 2.3
time-units after the LED turned on at 0, not 2.0, because the 0.3-time-unit
buzz blocks before the 2.0-time-unit hold starts. -/
theorem C3_timing_cex :
    ((0 : ℚ), Action.ledOn Color.green) ∈
      (process_vehicle_scan hw0 "VEH_001" 0 (ScanOutcome.success (some true) false)).2 ∧
    ((process_vehicle_scan hw0 "VEH_001" 0
        (ScanOutcome.success (some true) false)).2.filter isGreenOff) =
      [((23 : ℚ) / 10, Action.ledOff Color.green)] ∧
    (23 : ℚ) / 10 ≠ 2 := by
  rw [@process_accepted_eq hw0 "VEH_001" 0
      (ScanOutcome.success (some true) false) (by decide)]
  refine ⟨?_, ?_, by norm_num⟩ <;>
    norm_num [processAccepted, feedbackBranch, hw0, set_led_green_t,
      set_led_green_f, set_led_red_t, set_led_red_f, timedAt, scanTypeLabel,
      isGreenOff, List.filter]

/-- A booth like `hw0` but whose event channel is down (`self.websocket` is
`None`). -/
def hw0nc : HW :=
  { rfidSerial := true, camera := true, websocket := false, lastScanTime := [] }

/-- Claim C7: a notification attempted while the channel is not connected is
silently dropped: the trace holds no websocket send or send attempt, the
resulting state is exactly the old state with the last-seen time recorded (the
state has no queue, so nothing is delivered after reconnection), and the scan
processing still runs to completion — the final LED-off of the feedback branch
is reached, for any verdict and even if a send would have raised. -/
theorem C7_fire_and_forget (hw : HW) (id : VehicleId) (now : ℚ)
    (reg : Option Bool) (s : Bool)
    (hws : hw.websocket = false)
    (hacc : (shouldProcess scan_cooldown hw.lastScanTime id now).1 = true) :
    ((process_vehicle_scan hw id now (ScanOutcome.success reg s)).2.filter isWsAct)
      = [] ∧
    (process_vehicle_scan hw id now (ScanOutcome.success reg s)).1 =
      { hw with lastScanTime := setLast hw.lastScanTime id now } ∧
    (if reg.getD false = true then
      ((3 : ℚ) / 10 + 2, Action.ledOff Color.green) ∈
        (process_vehicle_scan hw id now (ScanOutcome.success reg s)).2
     else
      ((1 : ℚ) + 2, Action.ledOff Color.green) ∈
        (process_vehicle_scan hw id now (ScanOutcome.success reg s)).2) := by
  rw [process_accepted_eq (ScanOutcome.success reg s) hacc]
  obtain ⟨rf, cam, ws, m⟩ := hw
  simp only at hws
  subst hws
  by_cases hr : reg.getD false = true <;>
    simp [processAccepted, feedbackBranch, hr, set_led_green_t, set_led_green_f,
      set_led_red_t, set_led_red_f, timedAt, isWsAct, List.filter]

/-- Witness for C7 at a concrete disconnected-channel scan. -/
theorem C7_fire_and_forget_w :
    (hw0nc.websocket = false ∧
     (shouldProcess scan_cooldown hw0nc.lastScanTime "VEH_001" 0).1 = true) ∧
    (((process_vehicle_scan hw0nc "VEH_001" 0
        (ScanOutcome.success (some true) false)).2.filter isWsAct) = [] ∧
     (process_vehicle_scan hw0nc "VEH_001" 0
        (ScanOutcome.success (some true) false)).1 =
       { hw0nc with lastScanTime := setLast hw0nc.lastScanTime "VEH_001" 0 } ∧
     (if (some true).getD false = true then
       ((3 : ℚ) / 10 + 2, Action.ledOff Color.green) ∈
         (process_vehicle_scan hw0nc "VEH_001" 0
           (ScanOutcome.success (some true) false)).2
      else
       ((1 : ℚ) + 2, Action.ledOff Color.green) ∈
         (process_vehicle_scan hw0nc "VEH_001" 0
           (ScanOutcome.success (some true) false)).2)) :=
  ⟨⟨by decide, by decide⟩,
   C7_fire_and_forget hw0nc "VEH_001" 0 (some true) false (by decide) (by decide)⟩

/-- Claim C8: for every accepted scan the last-seen time is recorded at
acceptance, before the backend call, so whatever the report outcome — success,
rejection or unreachable backend — the state carries `id ↦ now` and a re-scan
of the same identifier within the cooldown window is suppressed. -/
theorem C8_at_most_once (hw : HW) (id : VehicleId) (now t2 : ℚ)
    (out : ScanOutcome)
    (hacc : (shouldProcess scan_cooldown hw.lastScanTime id now).1 = true)
    (hwin : t2 - now < scan_cooldown) :
    lookupLast (process_vehicle_scan hw id now out).1.lastScanTime id = some now ∧
    (shouldProcess scan_cooldown
      (process_vehicle_scan hw id now out).1.lastScanTime id t2).1 = false := by
  rw [process_accepted_eq out hacc, processAccepted_fst]
  constructor
  · exact lookupLast_setLast_self _ _ _
  · simp [shouldProcess, lookupLast_setLast_self, hwin]

/-- Witness for C8: an unreachable-backend report at `now = 0`, re-scan at
`t2 = 3`. -/
theorem C8_at_most_once_w :
    ((shouldProcess scan_cooldown hw0.lastScanTime "VEH_003" 0).1 = true ∧
     (3 : ℚ) - 0 < scan_cooldown) ∧
    (lookupLast
       (process_vehicle_scan hw0 "VEH_003" 0 ScanOutcome.postRaises).1.lastScanTime
       "VEH_003" = some 0 ∧
     (shouldProcess scan_cooldown
       (process_vehicle_scan hw0 "VEH_003" 0 ScanOutcome.postRaises).1.lastScanTime
       "VEH_003" 3).1 = false) :=
  ⟨⟨by decide, by norm_num [scan_cooldown]⟩,
   C8_at_most_once hw0 "VEH_003" 0 3 ScanOutcome.postRaises (by decide)
     (by norm_num [scan_cooldown])⟩

/-- Claim C10: a 200 response whose body lacks the `registered` field (or
carries a false value) is handled exactly like an explicit
`{registered: false}` response — the unregistered-vehicle branch with the red
LED — not as a malformed-response error. -/
theorem C10_missing_field_unregistered (hw : HW) (id : VehicleId) (now : ℚ)
    (body : Option Bool) (s : Bool)
    (hacc : (shouldProcess scan_cooldown hw.lastScanTime id now).1 = true)
    (hbody : body.getD false = false) :
    process_vehicle_scan hw id now (ScanOutcome.success body s) =
      process_vehicle_scan hw id now (ScanOutcome.success (some false) s) ∧
    ((0 : ℚ), Action.ledOn Color.red) ∈
      (process_vehicle_scan hw id now (ScanOutcome.success body s)).2 := by
  rw [process_accepted_eq (ScanOutcome.success body s) hacc,
      process_accepted_eq (ScanOutcome.success (some false) s) hacc]
  constructor
  · simp [processAccepted, hbody]
  · simp [processAccepted, hbody, mem_feedbackBranch_red_on]

/-- Witness for C10: a 200 response with no `registered` field at all. -/
theorem C10_missing_field_unregistered_w :
    ((shouldProcess scan_cooldown hw0.lastScanTime "VEH_004" 0).1 = true ∧
     (none : Option Bool).getD false = false) ∧
    (process_vehicle_scan hw0 "VEH_004" 0 (ScanOutcome.success none false) =
       process_vehicle_scan hw0 "VEH_004" 0 (ScanOutcome.success (some false) false) ∧
     ((0 : ℚ), Action.ledOn Color.red) ∈
       (process_vehicle_scan hw0 "VEH_004" 0 (ScanOutcome.success none false)).2) :=
  ⟨⟨by decide, by decide⟩,
   C10_missing_field_unregistered hw0 "VEH_004" 0 none false (by decide) (by decide)⟩

/-- The whitespace characters removed by Python `str.strip()`. -/
def pyIsSpace (c : Char) : Bool :=
  decide (c = ' ') || decide (c = '\t') || decide (c = '\n') || decide (c = '\r')
    || decide (c = '\x0b') || decide (c = '\x0c')

/-- Python `.strip()` applied to the decoded serial line (character-list level). -/
def pyStripChars (l : List Char) : List Char :=
  ((l.dropWhile pyIsSpace).reverse.dropWhile pyIsSpace).reverse

/-- The character filter of `.replace('\r', '').replace('\n', '')`. -/
def notCRLF (c : Char) : Bool := !(decide (c = '\r') || decide (c = '\n'))

/-- Outcome of one low-level sensor access: either a value (a buffered line /
decoded frame payload, or nothing) or a raised driver exception. -/
inductive SensorRead
  | ok (v : Option String)
  | err
  deriving DecidableEq, Repr

/-- Embedding of `read_rfid` (lines 148-165): `None` when no serial device; a raised serial
exception is caught and logged, yielding `None`; otherwise the buffered line
is decoded, stripped, and returned with CR/LF removed when non-empty. -/
def read_rfid (serialPresent : Bool) (r : SensorRead) :
    Option String × List Action :=
  if !serialPresent then (none, [])
  else
    match r with
    | SensorRead.err => (none, [Action.log "rfid_error"])
    | SensorRead.ok none => (none, [])
    | SensorRead.ok (some raw) =>
        let data := pyStripChars raw.data
        if 0 < data.length then (some (String.mk (data.filter notCRLF)), [])
        else (none, [])

/-- Embedding of `scan_qr_code` (lines 167-188): `None` when no camera; a raised camera or
decoder exception is caught and logged, yielding `None`; otherwise the first
decoded payload of the frame, or `None`. -/
def scan_qr_code (cameraPresent : Bool) (r : SensorRead) :
    Option String × List Action :=
  if !cameraPresent then (none, [])
  else
    match r with
    | SensorRead.err => (none, [Action.log "qr_error"])
    | SensorRead.ok v => (v, [])

/-- Python truthiness of an optional string (`if not vehicle_id`): falsy when
`None` or empty. -/
def pyFalsy : Option String → Bool
  | none => true
  | some s => decide (s = "")

theorem notCRLF_of_not_space {c : Char} (h : pyIsSpace c = false) :
    notCRLF c = true := by
  by_cases hr : c = '\r'
  · rw [hr] at h; exact absurd h (by decide)
  · by_cases hn : c = '\n'
    · rw [hn] at h; exact absurd h (by decide)
    · unfold notCRLF
      rw [decide_eq_false hr, decide_eq_false hn]
      rfl

theorem pyStrip_filter_ne_nil {l : List Char} (h : pyStripChars l ≠ []) :
    (pyStripChars l).filter notCRLF ≠ [] := by
  unfold pyStripChars at h ⊢
  have hMne : (l.dropWhile pyIsSpace).reverse.dropWhile pyIsSpace ≠ [] := by
    intro hc
    apply h
    rw [hc]
    rfl
  have hhead :
      pyIsSpace (((l.dropWhile pyIsSpace).reverse.dropWhile pyIsSpace).head hMne)
        = false :=
    List.head_dropWhile_not pyIsSpace (l.dropWhile pyIsSpace).reverse hMne
  have hmem :
      ((l.dropWhile pyIsSpace).reverse.dropWhile pyIsSpace).head hMne ∈
        ((l.dropWhile pyIsSpace).reverse.dropWhile pyIsSpace).reverse := by
    rw [List.mem_reverse]
    exact List.head_mem hMne
  have hin :
      ((l.dropWhile pyIsSpace).reverse.dropWhile pyIsSpace).head hMne ∈
        (((l.dropWhile pyIsSpace).reverse.dropWhile pyIsSpace).reverse.filter notCRLF) :=
    List.mem_filter.mpr ⟨hmem, notCRLF_of_not_space hhead⟩
  exact List.ne_nil_of_mem hin

theorem read_rfid_ne_empty {sp : Bool} {r : SensorRead} {v : String}
    (h : (read_rfid sp r).1 = some v) : v ≠ "" := by
  unfold read_rfid at h
  cases sp with
  | false => simp at h
  | true =>
      cases r with
      | err => simp at h
      | ok o =>
          cases o with
          | none => simp at h
          | some raw =>
              simp only [Bool.not_true, Bool.false_eq_true, if_false] at h
              split at h
          
              case isTrue hlen =>
                intro he
                apply pyStrip_filter_ne_nil (List.length_pos.mp hlen)
                have hv := Option.some.inj h
                have hdata := congrArg String.data (hv.trans he)
                simpa using hdata
              case isFalse hlen => simp at h

/-- The sensor-polling prefix of one `scan_loop` cycle (lines 293-298): RFID is
read first; the QR source is polled only when the RFID result is falsy and the
camera is available.  The middle component records whether the QR source was
polled; the last collects sensor-level log actions. -/
def scanCyclePoll (hw : HW) (l q : SensorRead) :
    Option String × Bool × List Action :=
  let r := read_rfid hw.rfidSerial l
  if pyFalsy r.1 && hw.camera then
    let sq := scan_qr_code hw.camera q
    (sq.1, true, r.2 ++ sq.2)
  else (r.1, false, r.2)

/-- Environment of one scan cycle: whether an exception escapes the cycle body
to the loop handler, the two sensor outcomes, and the backend outcome used if
a scan is accepted. -/
structure CycleInput where
  raiseInLoop : Bool
  rfid : SensorRead
  qr : SensorRead
  outcome : ScanOutcome
  deriving DecidableEq, Repr

/-- One iteration of `scan_loop` (lines 291-309).  An exception escaping the
cycle body is caught by the loop handler — log and `asyncio.sleep(1)`, with no
LED action; otherwise the sensors are polled, a truthy identifier is processed
through `process_vehicle_scan`, and the cycle ends with the 0.1 idle pause.
Returns the new state, the cycle trace and the end-of-cycle delay. -/
def scanCycle (hw : HW) (now : ℚ) (inp : CycleInput) : HW × Trace × ℚ :=
  if inp.raiseInLoop then (hw, [((0 : ℚ), Action.log "scan_loop_error")], 1)
  else
    let p := scanCyclePoll hw inp.rfid inp.qr
    let sensorTr := timedAt 0 p.2.2
    match p.1 with
    | some id =>
        if id = "" then (hw, sensorTr, 1 / 10)
        else
          let pr := process_vehicle_scan hw id now inp.outcome
          (pr.1, sensorTr ++ pr.2, 1 / 10)
    | none => (hw, sensorTr, 1 / 10)

/-- Embedding of `scan_loop` (lines 287-309) over a finite list of per-cycle environments:
it runs one `scanCycle` per input, threading the state and the clock, and
yields one trace per cycle. -/
def scan_loop : HW → ℚ → List CycleInput → HW × List Trace
  | hw, _, [] => (hw, [])
  | hw, t, inp :: rest =>
      let c := scanCycle hw t inp
      let r := scan_loop c.1 (t + c.2.2) rest
      (r.1, c.2.1 :: r.2)

theorem scan_loop_length (hw : HW) (t : ℚ) (inps : List CycleInput) :
    (scan_loop hw t inps).2.length = inps.length := by
  induction inps generalizing hw t with
  | nil => rfl
  | cons i rest ih => simp [scan_loop, ih]

/-- Claim C5: in every cycle RFID is polled first; the QR source is polled
exactly when the RFID poll yields nothing and the camera is available; and
when the RFID poll yields an identifier, that identifier is the cycle's
result and the QR source is not polled. -/
theorem C5_rfid_priority (hw : HW) (l1 q1 l2 q2 : SensorRead) (v : String)
    (hv : (read_rfid hw.rfidSerial l1).1 = some v)
    (h2 : (read_rfid hw.rfidSerial l2).1 = none) :
    ((scanCyclePoll hw l1 q1).1 = some v ∧ (scanCyclePoll hw l1 q1).2.1 = false) ∧
    ((scanCyclePoll hw l2 q2).2.1 = hw.camera) ∧
    (hw.camera = true →
      (scanCyclePoll hw l2 q2).1 = (scan_qr_code hw.camera q2).1) := by
  have hne : v ≠ "" := read_rfid_ne_empty hv
  have hfal : pyFalsy (some v) = false := by
    simp [pyFalsy, hne]
  refine ⟨?_, ?_, ?_⟩
  · simp [scanCyclePoll, hv, hfal]
  · simp only [scanCyclePoll, h2, pyFalsy, Bool.true_and]
    cases hc : hw.camera <;> simp
  · intro hc
    simp [scanCyclePoll, h2, pyFalsy, hc]

/-- Witness for C5 at concrete sensor data: both sensors have data in the
first scenario; RFID is empty in the second. -/
theorem C5_rfid_priority_w :
    ((read_rfid hw0.rfidSerial (SensorRead.ok (some "VEH_A"))).1 = some "VEH_A" ∧
     (read_rfid hw0.rfidSerial (SensorRead.ok none)).1 = none) ∧
    (((scanCyclePoll hw0 (SensorRead.ok (some "VEH_A"))
          (SensorRead.ok (some "VEH_B"))).1 = some "VEH_A" ∧
      (scanCyclePoll hw0 (SensorRead.ok (some "VEH_A"))
          (SensorRead.ok (some "VEH_B"))).2.1 = false) ∧
     ((scanCyclePoll hw0 (SensorRead.ok none)
          (SensorRead.ok (some "VEH_B"))).2.1 = hw0.camera) ∧
     (hw0.camera = true →
       (scanCyclePoll hw0 (SensorRead.ok none) (SensorRead.ok (some "VEH_B"))).1 =
         (scan_qr_code hw0.camera (SensorRead.ok (some "VEH_B"))).1)) :=
  ⟨⟨by decide, by decide⟩,
   C5_rfid_priority hw0 (SensorRead.ok (some "VEH_A")) (SensorRead.ok (some "VEH_B"))
     (SensorRead.ok none) (SensorRead.ok (some "VEH_B")) "VEH_A"
     (by decide) (by decide)⟩

/-- Trace predicate: a scan report labelled with `scanType = "qr"`. -/
def isQrPost (p : ℚ × Action) : Bool :=
  match p.2 with
  | Action.httpPost t _ => decide (t = "qr")
  | _ => false

/-- Trace predicate: the red LED being switched on. -/
def isRedOn (p : ℚ × Action) : Bool :=
  match p.2 with
  | Action.ledOn Color.red => true
  | _ => false

/-- Cycle environment of the C4 failing input: the RFID serial device is
present but its buffer is empty, the camera decodes `"VEH_QR1"`, and the
backend confirms registration. -/
def inpC4 : CycleInput :=
  { raiseInLoop := false, rfid := SensorRead.ok none,
    qr := SensorRead.ok (some "VEH_QR1"),
    outcome := ScanOutcome.success (some true) false }

/-- Claim C4, evaluated at the failing input: the identifier `"VEH_QR1"` was
produced by the QR scanner (the RFID buffer was empty), yet the scan report
carries `scanType = "rfid"` because the label is computed from serial-device
availability; no `"qr"`-labelled report appears anywhere in the cycle trace. -/
theorem C4_scan_type_eval :
    ((0 : ℚ), Action.httpPost "rfid" "VEH_QR1") ∈ (scanCycle hw0 0 inpC4).2.1 ∧
    ((scanCycle hw0 0 inpC4).2.1.filter isQrPost) = [] := by
  have hcycle : (scanCycle hw0 0 inpC4).2.1 =
      (process_vehicle_scan hw0 "VEH_QR1" 0 (ScanOutcome.success (some true) false)).2 := by
    simp [scanCycle, inpC4, scanCyclePoll, read_rfid, scan_qr_code, pyFalsy,
      hw0, timedAt]
  rw [hcycle,
    @process_accepted_eq hw0 "VEH_QR1" 0 (ScanOutcome.success (some true) false)
      (by decide)]
  constructor
  · simp [processAccepted, feedbackBranch, hw0, scanTypeLabel, set_led_green_t,
      set_led_green_f, set_led_red_f, timedAt]
  · simp [processAccepted, feedbackBranch, hw0, scanTypeLabel, set_led_green_t,
      set_led_green_f, set_led_red_f, timedAt, isQrPost, List.filter]

/-- Cycle environment in which the serial driver raises inside `read_rfid`. -/
def inpRfidErr : CycleInput :=
  { raiseInLoop := false, rfid := SensorRead.err, qr := SensorRead.ok none,
    outcome := ScanOutcome.postRaises }

/-- Counterexample to claim C9 as stated: a serial-read failure during the
cycle is caught and logged inside `read_rfid`, but the cycle trace contains no
red-LED pulse at all — the failure is not "reflected as a red-error pulse";
the state is unchanged and the cycle ends normally. -/
theorem C9_sensor_failure_cex :
    (scanCycle hw0 0 inpRfidErr).2.1 = [((0 : ℚ), Action.log "rfid_error")] ∧
    ((scanCycle hw0 0 inpRfidErr).2.1.filter isRedOn) = [] ∧
    (scanCycle hw0 0 inpRfidErr).1 = hw0 := by
  refine ⟨?_, ?_, ?_⟩ <;>
    simp [scanCycle, inpRfidErr, scanCyclePoll, read_rfid, scan_qr_code,
      pyFalsy, hw0, timedAt, isRedOn, List.filter]

/-- Claim C9 (amended): a failure raised while processing an accepted scan is
caught and reflected as a red-error pulse; a sensor-read failure is caught and
logged inside the sensor poll and degrades it to an empty read, with no red
pulse; a failure escaping the cycle body is caught and logged by the loop
handler with a 1-time-unit pause and no LED action; and the loop always
proceeds to the next cycle — it runs exactly one cycle per environment input,
so no single failing cycle terminates it. -/
theorem C9_loop_resilience (hw hw2 hw3 hw4 : HW) (id : VehicleId)
    (now n2 n3 t : ℚ) (inp inp2 : CycleInput) (inps : List CycleInput)
    (hacc : (shouldProcess scan_cooldown hw.lastScanTime id now).1 = true)
    (hloop : inp.raiseInLoop = true)
    (h2a : inp2.raiseInLoop = false) (h2b : inp2.rfid = SensorRead.err)
    (h2c : inp2.qr = SensorRead.ok none) (h2rf : hw2.rfidSerial = true) :
    ((0 : ℚ), Action.ledOn Color.red) ∈
      (process_vehicle_scan hw id now ScanOutcome.postRaises).2 ∧
    scanCycle hw3 n2 inp = (hw3, [((0 : ℚ), Action.log "scan_loop_error")], 1) ∧
    scanCycle hw2 n3 inp2 = (hw2, [((0 : ℚ), Action.log "rfid_error")], 1 / 10) ∧
    (scan_loop hw4 t inps).2.length = inps.length := by
  refine ⟨?_, ?_, ?_, scan_loop_length hw4 t inps⟩
  · rw [process_accepted_eq ScanOutcome.postRaises hacc]
    simp [processAccepted, set_led_red_t, set_led_red_f, timedAt]
  · simp [scanCycle, hloop]
  · obtain ⟨rf, cam, ws, m⟩ := hw2
    simp only at h2rf
    subst h2rf
    cases cam <;>
      simp [scanCycle, h2a, h2b, h2c, scanCyclePoll, read_rfid, scan_qr_code,
        pyFalsy, timedAt]

/-- Witness for the amended C9 at concrete inputs. -/
theorem C9_loop_resilience_w :
    ((shouldProcess scan_cooldown hw0.lastScanTime "VEH_005" 0).1 = true ∧
     ({ raiseInLoop := true, rfid := SensorRead.ok none, qr := SensorRead.ok none,
        outcome := ScanOutcome.postRaises : CycleInput }).raiseInLoop = true ∧
     inpRfidErr.raiseInLoop = false ∧ inpRfidErr.rfid = SensorRead.err ∧
     inpRfidErr.qr = SensorRead.ok none ∧ hw0.rfidSerial = true) ∧
    (((0 : ℚ), Action.ledOn Color.red) ∈
       (process_vehicle_scan hw0 "VEH_005" 0 ScanOutcome.postRaises).2 ∧
     scanCycle hw0 0
       { raiseInLoop := true, rfid := SensorRead.ok none, qr := SensorRead.ok none,
         outcome := ScanOutcome.postRaises } =
       (hw0, [((0 : ℚ), Action.log "scan_loop_error")], 1) ∧
     scanCycle hw0 0 inpRfidErr = (hw0, [((0 : ℚ), Action.log "rfid_error")], 1 / 10) ∧
     (scan_loop hw0 0 [inpRfidErr]).2.length = [inpRfidErr].length) :=
  ⟨⟨by decide, by decide, by decide, by decide, by decide, by decide⟩,
   C9_loop_resilience hw0 hw0 hw0 hw0 "VEH_005" 0 0 0 0
     { raiseInLoop := true, rfid := SensorRead.ok none, qr := SensorRead.ok none,
       outcome := ScanOutcome.postRaises }
     inpRfidErr [inpRfidErr] (by decide) (by decide) (by decide) (by decide)
     (by decide) (by decide)⟩

/-- An inbound channel message as the code reads it: the `type` tag and the
`command`, `color` and `duration` fields with their `.get` defaults already
applied (`'green'`, `0.5`). -/
structure WsMsg where
  msgType : String
  command : String
  color : String
  duration : ℚ
  deriving DecidableEq, Repr

/-- Outcome of one `websocket.recv()` call: a parsed message, the
`ConnectionClosed` exception, or any other raised exception (including a JSON
parse failure of the received text). -/
inductive RecvResult
  | msg (m : WsMsg)
  | closed
  | err
  deriving DecidableEq, Repr

/-- Environment of one `websocket_loop` iteration: whether a connection
attempt would succeed, and what a receive would produce. -/
structure WsEnv where
  connectOk : Bool
  recv : RecvResult
  deriving DecidableEq, Repr

/-- Embedding of `connect_websocket` (lines 110-121): on success the handle is set and the
hardware-status payload is sent; on failure the handle stays `None`. -/
def connect_websocket (ok : Bool) : Bool × Trace :=
  if ok then (true, [((0 : ℚ), Action.connectAttempt), (0, Action.statusSend)])
  else (false, [((0 : ℚ), Action.connectAttempt)])

/-- Embedding of `handle_hardware_command` (lines 335-350): dispatch on the `command`
string; unknown commands do nothing. -/
def handle_hardware_command (c : WsMsg) : Trace :=
  if c.command = "test_led" then
    timedAt 0 (set_status_led c.color true) ++ timedAt 1 (set_status_led c.color false)
  else if c.command = "test_buzzer" then
    [((0 : ℚ), Action.buzzerHigh), (c.duration, Action.buzzerLow)]
  else if c.command = "status_request" then
    [((0 : ℚ), Action.statusSend)]
  else []

/-- One iteration of `websocket_loop` (lines 311-333).  With no handle:
attempt to connect, then `asyncio.sleep(5)` and continue.  With a handle:
receive; a `hardware_command` message is dispatched with no pause; a
`ConnectionClosed` exception clears the handle and pauses 5 time-units before
the next iteration; any other exception is logged and pauses 1 time-unit with
the handle kept.  Returns the new handle state, the iteration trace, and the
pause before the next iteration. -/
def websocketStep (ws : Bool) (e : WsEnv) : Bool × Trace × ℚ :=
  if !ws then
    let c := connect_websocket e.connectOk
    (c.1, c.2, 5)
  else
    match e.recv with
    | RecvResult.msg m =>
        (true,
         if m.msgType = "hardware_command" then handle_hardware_command m else [],
         0)
    | RecvResult.closed => (false, [((0 : ℚ), Action.log "ws_closed")], 5)
    | RecvResult.err => (true, [((0 : ℚ), Action.log "ws_error")], 1)

/-- Embedding of `websocket_loop` over a finite list of per-iteration environments, with
absolute trace times: each iteration's trace is shifted by the current clock,
which then advances by the iteration's pause. -/
def websocket_loop : Bool → ℚ → List WsEnv → Bool × Trace
  | ws, _, [] => (ws, [])
  | ws, t, e :: es =>
      let s := websocketStep ws e
      let rest := websocket_loop s.1 (t + s.2.2) es
      (rest.1, s.2.1.map (fun p => (t + p.1, p.2)) ++ rest.2)

/-- The sequence of channel states after each `websocket_loop` iteration. -/
def wsStates : Bool → List WsEnv → List Bool
  | _, [] => []
  | ws, e :: es => (websocketStep ws e).1 :: wsStates (websocketStep ws e).1 es

theorem wsStates_length (ws : Bool) (es : List WsEnv) :
    (wsStates ws es).length = es.length := by
  induction es generalizing ws with
  | nil => rfl
  | cons e rest ih => simp [wsStates, ih]

theorem process_websocket_unchanged (hw : HW) (id : VehicleId) (now : ℚ)
    (out : ScanOutcome) :
    (process_vehicle_scan hw id now out).1.websocket = hw.websocket := by
  unfold process_vehicle_scan
  split
  · rw [processAccepted_fst]
  · rfl

/-- Counterexample to claim C6 as stated: a receive failure that is not a
`ConnectionClosed` notice (any other raised exception) leaves the channel
handle set — no transition to Disconnected — and retries after a 1-time-unit
pause, not the 5-time-unit backoff. -/
theorem C6_recv_error_cex :
    (websocketStep true { connectOk := true, recv := RecvResult.err }).1 = true ∧
    (websocketStep true { connectOk := true, recv := RecvResult.err }).2.2 = 1 ∧
    ((1 : ℚ) ≠ 5) := by decide

/-- Claim C6 (amended): a receive failure that is a connection-closed notice
transitions the channel to Disconnected, and the next reconnect attempt
happens exactly 5 time-units later, never before — the two-iteration trace
after such a failure at time `t` is the failure log at `t` followed by the
connect attempt at `t + 5` and, on success, the status payload at `t + 5`.
Any other receive failure leaves the channel Connected and retries after 1
time-unit without reconnecting; a send failure during scan processing leaves
the channel state unchanged; and the loop never terminates — it runs one
iteration per environment input. -/
theorem C6_reconnect_backoff (e1 e2 : WsEnv) (t : ℚ) (b : Bool)
    (es : List WsEnv) (hw : HW) (id : VehicleId) (now : ℚ) (out : ScanOutcome)
    (h1 : e1.recv = RecvResult.closed) (h2 : e2.recv = RecvResult.err) :
    websocketStep true e1 = (false, [((0 : ℚ), Action.log "ws_closed")], 5) ∧
    (websocket_loop true t [e1, e2]).2 =
      [(t, Action.log "ws_closed"), (t + 5, Action.connectAttempt)] ++
        (if e2.connectOk = true then [(t + 5, Action.statusSend)] else []) ∧
    websocketStep true e2 = (true, [((0 : ℚ), Action.log "ws_error")], 1) ∧
    (process_vehicle_scan hw id now out).1.websocket = hw.websocket ∧
    (wsStates b es).length = es.length := by
  refine ⟨?_, ?_, ?_, process_websocket_unchanged hw id now out,
    wsStates_length b es⟩
  · simp [websocketStep, h1]
  · obtain ⟨ok, rcv⟩ := e2
    simp only at h2
    subst h2
    cases ok <;>
      simp [websocket_loop, websocketStep, h1, connect_websocket]
  · simp [websocketStep, h2]

/-- Witness for the amended C6 at concrete inputs. -/
theorem C6_reconnect_backoff_w :
    (({ connectOk := true, recv := RecvResult.closed : WsEnv }).recv
        = RecvResult.closed ∧
     ({ connectOk := true, recv := RecvResult.err : WsEnv }).recv
        = RecvResult.err) ∧
    (websocketStep true { connectOk := true, recv := RecvResult.closed } =
       (false, [((0 : ℚ), Action.log "ws_closed")], 5) ∧
     (websocket_loop true 0
        [{ connectOk := true, recv := RecvResult.closed },
         { connectOk := true, recv := RecvResult.err }]).2 =
       [((0 : ℚ), Action.log "ws_closed"), ((0 : ℚ) + 5, Action.connectAttempt)] ++
         (if ({ connectOk := true, recv := RecvResult.err : WsEnv }).connectOk = true
          then [((0 : ℚ) + 5, Action.statusSend)] else []) ∧
     websocketStep true { connectOk := true, recv := RecvResult.err } =
       (true, [((0 : ℚ), Action.log "ws_error")], 1) ∧
     (process_vehicle_scan hw0 "VEH_006" 0 ScanOutcome.postRaises).1.websocket
        = hw0.websocket ∧
     (wsStates true [{ connectOk := true, recv := RecvResult.err }]).length =
       [({ connectOk := true, recv := RecvResult.err : WsEnv })].length) :=
  ⟨⟨by decide, by decide⟩,
   C6_reconnect_backoff { connectOk := true, recv := RecvResult.closed }
     { connectOk := true, recv := RecvResult.err } 0 true
     [{ connectOk := true, recv := RecvResult.err }] hw0 "VEH_006" 0
     ScanOutcome.postRaises (by decide) (by decide)⟩
